import Mathlib

/-!
Verification development for the `sagemcom_api` client
(`src/sagemcom_api/sagemcom_api.py`).

The file shallowly embeds the client: the two digest algorithms used by
`__generate_hash` (MD5 and SHA-512, byte-level, producing hex digests like
Python's `hashlib.<alg>(...).hexdigest()`), a JSON value type standing for
the Python objects produced by `response.json()`, the mutable client state
(`__init__`), the per-request state transformations
(`__generate_request_id`, `__generate_nonce`, `__generate_auth_key`), the
response unwrapping helpers (`__get_response_error`,
`__get_response_value`), the response handling of `__api_request_async`,
`login`, and `parse_devices`.  Fallible Python subscripting is modelled
with `Except PyErr`, whose constructors mirror the exception classes
CPython would raise (`KeyError`, `TypeError`, `IndexError`).
-/

namespace Sagemcom

/-! ## Bytes, UTF-8 and hex digests -/

/-- UTF-8 encoding of a single character (Python `bytes(value, encoding='utf-8')`
encodes each code point like this). -/
def utf8EncodeChar (c : Char) : List Nat :=
  let n := c.toNat
  if n < 0x80 then [n]
  else if n < 0x800 then
    [0xC0 ||| (n >>> 6), 0x80 ||| (n &&& 0x3F)]
  else if n < 0x10000 then
    [0xE0 ||| (n >>> 12), 0x80 ||| ((n >>> 6) &&& 0x3F), 0x80 ||| (n &&& 0x3F)]
  else
    [0xF0 ||| (n >>> 18), 0x80 ||| ((n >>> 12) &&& 0x3F),
     0x80 ||| ((n >>> 6) &&& 0x3F), 0x80 ||| (n &&& 0x3F)]

/-- `bytes(value, encoding='utf-8')` as a list of byte values. -/
def strToBytes (s : String) : List Nat :=
  s.data.flatMap utf8EncodeChar

/-- The sixteen lowercase hex digit characters, in order. -/
def hexDigitChars : List Char :=
  "0123456789abcdef".data

/-- The hex character for a nibble value. -/
def hexChar (n : Nat) : Char :=
  hexDigitChars.getD n '0'

/-- `hexdigest()`: each byte rendered as two lowercase hex characters. -/
def bytesToHex (bs : List Nat) : String :=
  ⟨bs.flatMap fun b => [hexChar (b / 16 % 16), hexChar (b % 16)]⟩

/-- Split a list into consecutive chunks of `n` elements (`n > 0`;
the final chunk is shorter if `n` does not divide the length). -/
def chunksOf (n : Nat) (l : List α) : List (List α) :=
  if h : l.isEmpty ∨ n = 0 then []
  else l.take n :: chunksOf n (l.drop n)
termination_by l.length
decreasing_by
  simp only [not_or, List.isEmpty_iff] at h
  have h1 := List.length_pos.mpr h.1
  have h2 : 0 < n := Nat.pos_of_ne_zero h.2
  simp only [List.length_drop]
  omega

/-- Read `w`-byte little-endian. -/
def fromLE (bs : List Nat) : Nat :=
  bs.foldr (fun b acc => b + 256 * acc) 0

/-- Write `n` as `w` bytes little-endian. -/
def toLE (w n : Nat) : List Nat :=
  (List.range w).map fun i => n >>> (8 * i) % 256

/-- Read big-endian. -/
def fromBE (bs : List Nat) : Nat :=
  bs.foldl (fun acc b => acc * 256 + b) 0

/-- Write `n` as `w` bytes big-endian. -/
def toBE (w n : Nat) : List Nat :=
  (List.range w).map fun i => n >>> (8 * (w - 1 - i)) % 256

/-! ## MD5 (RFC 1321) -/

/-- MD5 per-round left-rotation amounts. -/
def md5s : List Nat :=
  [7, 12, 17, 22, 7, 12, 17, 22, 7, 12, 17, 22, 7, 12, 17, 22,
   5, 9, 14, 20, 5, 9, 14, 20, 5, 9, 14, 20, 5, 9, 14, 20,
   4, 11, 16, 23, 4, 11, 16, 23, 4, 11, 16, 23, 4, 11, 16, 23,
   6, 10, 15, 21, 6, 10, 15, 21, 6, 10, 15, 21, 6, 10, 15, 21]

/-- MD5 sine-derived round constants. -/
def md5K : List Nat :=
  [3614090360, 3905402710, 606105819, 3250441966, 4118548399, 1200080426,
   2821735955, 4249261313, 1770035416, 2336552879, 4294925233, 2304563134,
   1804603682, 4254626195, 2792965006, 1236535329, 4129170786, 3225465664,
   643717713, 3921069994, 3593408605, 38016083, 3634488961, 3889429448,
   568446438, 3275163606, 4107603335, 1163531501, 2850285829, 4243563512,
   1735328473, 2368359562, 4294588738, 2272392833, 1839030562, 4259657740,
   2763975236, 1272893353, 4139469664, 3200236656, 681279174, 3936430074,
   3572445317, 76029189, 3654602809, 3873151461, 530742520, 3299628645,
   4096336452, 1126891415, 2878612391, 4237533241, 1700485571, 2399980690,
   4293915773, 2240044497, 1873313359, 4264355552, 2734768916, 1309151649,
   4149444226, 3174756917, 718787259, 3951481745]

/-- 32-bit left rotation (operand already reduced mod `2^32`). -/
def rotl32 (x s : Nat) : Nat :=
  ((x <<< s) ||| (x >>> (32 - s))) % 4294967296

/-- 32-bit complement. -/
def not32 (x : Nat) : Nat :=
  x ^^^ 4294967295

/-- One MD5 round `i` over the 16 message words `M`,
transforming the working registers `(A, B, C, D)`. -/
def md5Round (M : List Nat) (st : Nat × Nat × Nat × Nat) (i : Nat) :
    Nat × Nat × Nat × Nat :=
  let (A, B, C, D) := st
  let (F, g) :=
    if i < 16 then ((B &&& C) ||| (not32 B &&& D), i)
    else if i < 32 then ((D &&& B) ||| (not32 D &&& C), (5 * i + 1) % 16)
    else if i < 48 then (B ^^^ C ^^^ D, (3 * i + 5) % 16)
    else (C ^^^ (B ||| not32 D), (7 * i) % 16)
  let F := (F + A + md5K.getD i 0 + M.getD g 0) % 4294967296
  (D, (B + rotl32 F (md5s.getD i 0)) % 4294967296, B, C)

/-- Process one 64-byte block into the running MD5 state. -/
def md5Block (h : Nat × Nat × Nat × Nat) (block : List Nat) :
    Nat × Nat × Nat × Nat :=
  let M := (chunksOf 4 block).map fromLE
  let (A, B, C, D) := (List.range 64).foldl (md5Round M) h
  let (a, b, c, d) := h
  ((a + A) % 4294967296, (b + B) % 4294967296,
   (c + C) % 4294967296, (d + D) % 4294967296)

/-- MD5 padding: `0x80`, zeros to 56 mod 64, then the 64-bit
little-endian bit length. -/
def md5Pad (msg : List Nat) : List Nat :=
  let len := msg.length
  msg ++ [0x80] ++ List.replicate ((120 - (len + 1) % 64) % 64) 0
      ++ toLE 8 (len * 8 % 18446744073709551616)

/-- MD5 digest of a byte sequence (16 bytes). -/
def md5Bytes (msg : List Nat) : List Nat :=
  let blocks := chunksOf 64 (md5Pad msg)
  let (a, b, c, d) :=
    blocks.foldl md5Block (0x67452301, 0xefcdab89, 0x98badcfe, 0x10325476)
  toLE 4 a ++ toLE 4 b ++ toLE 4 c ++ toLE 4 d

/-- `hashlib.md5(bytes(value, 'utf-8')).hexdigest()`. -/
def md5Hexdigest (value : String) : String :=
  bytesToHex (md5Bytes (strToBytes value))

/-! ## SHA-512 (FIPS 180-4) -/

/-- SHA-512 round constants (cube-root fractions of the first 80 primes). -/
def sha512K : List Nat :=
  [4794697086780616226, 8158064640168781261, 13096744586834688815,
   16840607885511220156, 4131703408338449720, 6480981068601479193,
   10538285296894168987, 12329834152419229976, 15566598209576043074,
   1334009975649890238, 2608012711638119052, 6128411473006802146,
   8268148722764581231, 9286055187155687089, 11230858885718282805,
   13951009754708518548, 16472876342353939154, 17275323862435702243,
   1135362057144423861, 2597628984639134821, 3308224258029322869,
   5365058923640841347, 6679025012923562964, 8573033837759648693,
   10970295158949994411, 12119686244451234320, 12683024718118986047,
   13788192230050041572, 14330467153632333762, 15395433587784984357,
   489312712824947311, 1452737877330783856, 2861767655752347644,
   3322285676063803686, 5560940570517711597, 5996557281743188959,
   7280758554555802590, 8532644243296465576, 9350256976987008742,
   10552545826968843579, 11727347734174303076, 12113106623233404929,
   14000437183269869457, 14369950271660146224, 15101387698204529176,
   15463397548674623760, 17586052441742319658, 1182934255886127544,
   1847814050463011016, 2177327727835720531, 2830643537854262169,
   3796741975233480872, 4115178125766777443, 5681478168544905931,
   6601373596472566643, 7507060721942968483, 8399075790359081724,
   8693463985226723168, 9568029438360202098, 10144078919501101548,
   10430055236837252648, 11840083180663258601, 13761210420658862357,
   14299343276471374635, 14566680578165727644, 15097957966210449927,
   16922976911328602910, 17689382322260857208, 500013540394364858,
   748580250866718886, 1242879168328830382, 1977374033974150939,
   2944078676154940804, 3659926193048069267, 4368137639120453308,
   4836135668995329356, 5532061633213252278, 6448918945643986474,
   6902733635092675308, 7801388544844847127]

/-- SHA-512 initial hash values (square-root fractions of the first 8 primes). -/
def sha512H0 : List Nat :=
  [7640891576956012808, 13503953896175478587, 4354685564936845355,
   11912009170470909681, 5840696475078001361, 11170449401992604703,
   2270897969802886507, 6620516959819538809]

/-- 64-bit right rotation (operand already reduced mod `2^64`). -/
def rotr64 (x s : Nat) : Nat :=
  ((x >>> s) ||| (x <<< (64 - s))) % 18446744073709551616

/-- 64-bit complement. -/
def not64 (x : Nat) : Nat :=
  x ^^^ 18446744073709551615

/-- Extend the 16 block words to the 80-word message schedule. -/
def sha512Schedule (ws : List Nat) : List Nat :=
  (List.range 64).foldl
    (fun acc _ =>
      let t := acc.length
      let s0 :=
        rotr64 (acc.getD (t - 15) 0) 1 ^^^ rotr64 (acc.getD (t - 15) 0) 8 ^^^
          (acc.getD (t - 15) 0 >>> 7)
      let s1 :=
        rotr64 (acc.getD (t - 2) 0) 19 ^^^ rotr64 (acc.getD (t - 2) 0) 61 ^^^
          (acc.getD (t - 2) 0 >>> 6)
      acc ++ [(acc.getD (t - 16) 0 + s0 + acc.getD (t - 7) 0 + s1) %
        18446744073709551616])
    ws

/-- One SHA-512 compression round over the schedule `w`. -/
def sha512Round (w : List Nat) (st : List Nat) (t : Nat) : List Nat :=
  match st with
  | [a, b, c, d, e, f, g, h] =>
    let S1 := rotr64 e 14 ^^^ rotr64 e 18 ^^^ rotr64 e 41
    let ch := (e &&& f) ^^^ (not64 e &&& g)
    let t1 := (h + S1 + ch + sha512K.getD t 0 + w.getD t 0) % 18446744073709551616
    let S0 := rotr64 a 28 ^^^ rotr64 a 34 ^^^ rotr64 a 39
    let mj := (a &&& b) ^^^ (a &&& c) ^^^ (b &&& c)
    let t2 := (S0 + mj) % 18446744073709551616
    [(t1 + t2) % 18446744073709551616, a, b, c, (d + t1) % 18446744073709551616,
     e, f, g]
  | other => other

/-- Process one 128-byte block into the running SHA-512 state. -/
def sha512Block (h : List Nat) (block : List Nat) : List Nat :=
  let w := sha512Schedule ((chunksOf 8 block).map fromBE)
  let v := (List.range 80).foldl (sha512Round w) h
  (h.zip v).map fun p => (p.1 + p.2) % 18446744073709551616

/-- SHA-512 padding: `0x80`, zeros to 112 mod 128, then the 128-bit
big-endian bit length. -/
def sha512Pad (msg : List Nat) : List Nat :=
  let len := msg.length
  msg ++ [0x80] ++ List.replicate ((239 - (len + 1) % 128) % 128) 0
      ++ toBE 16 (len * 8 % 340282366920938463463374607431768211456)

/-- SHA-512 digest of a byte sequence (64 bytes). -/
def sha512Bytes (msg : List Nat) : List Nat :=
  let blocks := chunksOf 128 (sha512Pad msg)
  (blocks.foldl sha512Block sha512H0).flatMap (toBE 8)

/-- `hashlib.sha512(bytes(value, 'utf-8')).hexdigest()`. -/
def sha512Hexdigest (value : String) : String :=
  bytesToHex (sha512Bytes (strToBytes value))

/-! ## Python values and fallible subscripting

`response.json()` yields Python objects built from `None`, booleans,
numbers, strings, lists and string-keyed dicts.  `Json` stands for those
(numbers as integers; floats do not occur in any claim).  Subscripting is
partial: the `PyErr` constructors mirror the CPython exception classes. -/

inductive Json where
  | null
  | bool (b : Bool)
  | num (n : Int)
  | str (s : String)
  | arr (xs : List Json)
  | obj (fields : List (String × Json))

/-- The exception classes the embedded code can raise. -/
inductive PyErr where
  | keyError
  | typeError
  | indexError
deriving DecidableEq

/-- First value bound to `k` in an association list (Python dict lookup). -/
def objLookup (fields : List (String × Json)) (k : String) : Option Json :=
  match fields with
  | [] => none
  | (k₁, v) :: rest => if k₁ = k then some v else objLookup rest k

/-- Python `v[k]` for a string key `k`: dict lookup (raising `KeyError` when
the key is absent); every non-dict raises `TypeError`. -/
def pySubscriptStr (v : Json) (k : String) : Except PyErr Json :=
  match v with
  | .obj fields =>
    match objLookup fields k with
    | some x => .ok x
    | none => .error .keyError
  | _ => .error .typeError

/-- Python `v[i]` for a non-negative integer `i`: list indexing (raising
`IndexError` out of range), string indexing, `KeyError` on a string-keyed
dict, `TypeError` on everything else. -/
def pySubscriptNat (v : Json) (i : Nat) : Except PyErr Json :=
  match v with
  | .arr xs =>
    match xs.get? i with
    | some x => .ok x
    | none => .error .indexError
  | .str s =>
    match s.data.get? i with
    | some c => .ok (.str ⟨[c]⟩)
    | none => .error .indexError
  | .obj _ => .error .keyError
  | _ => .error .typeError

/-- Python `str()` of an optional integer field
(`str(None)` is the string `None`). -/
def pyStrOptInt : Option Int → String
  | none => "None"
  | some n => toString n

/-- Python `repr` of a JSON-shaped value (strings rendered between single
quotes; used by `str()` on lists and dicts). -/
def pyRepr : Json → String
  | .null => "None"
  | .bool true => "True"
  | .bool false => "False"
  | .num n => toString n
  | .str s => "\x27" ++ s ++ "\x27"
  | .arr xs =>
    "[" ++ String.intercalate ", " (xs.attach.map fun p => pyRepr p.1) ++ "]"
  | .obj fs =>
    "\x7b" ++ String.intercalate ", "
      (fs.attach.map fun p => "\x27" ++ p.1.1 ++ "\x27: " ++ pyRepr p.1.2) ++
      "\x7d"
decreasing_by
  · have h := List.sizeOf_lt_of_mem p.2
    simp only [Json.arr.sizeOf_spec]
    omega
  · obtain ⟨⟨k, v⟩, hm⟩ := p
    have h := List.sizeOf_lt_of_mem hm
    simp only [Prod.mk.sizeOf_spec] at h
    simp only [Json.obj.sizeOf_spec]
    omega

/-- Python `str()` of a JSON-shaped value. -/
def pyStrJson : Json → String
  | .null => "None"
  | .bool true => "True"
  | .bool false => "False"
  | .num n => toString n
  | .str s => s
  | .arr xs => pyRepr (.arr xs)
  | .obj fs => pyRepr (.obj fs)

/-! ## The client -/

/-- The `AuthenticationMethods` enum of the source. -/
inductive AuthenticationMethods where
  | MD5
  | SHA512
deriving DecidableEq

/-- What the `authentication_method` constructor argument can hold at
runtime: one of the two enum members, or any other Python value (nothing
in the source restricts the argument to the enum). -/
inductive PyAuthValue where
  | enum (m : AuthenticationMethods)
  | other
deriving DecidableEq

/-- `__generate_hash`: dispatch on the two `is` comparisons against the
enum members; any other `authentication_method` falls through and the
value is returned unhashed. -/
def generate_hash (m : PyAuthValue) (value : String) : String :=
  match m with
  | .enum .MD5 => md5Hexdigest value
  | .enum .SHA512 => sha512Hexdigest value
  | .other => value

/-- The digest function selected by an enum member. -/
def digestOf : AuthenticationMethods → String → String
  | .MD5 => md5Hexdigest
  | .SHA512 => sha512Hexdigest

/-- The instance attributes of `Sagemcom_Client`.  `_server_nonce` and
`_session_id` hold whatever `login` stored into them (arbitrary decoded
JSON values), `_current_nonce` and `_auth_key` do not exist until the
first request generates them (`Option`). -/
structure ClientState where
  host : String
  username : String
  authentication_method : PyAuthValue
  password_hash : String
  current_nonce : Option Int
  server_nonce : Json
  session_id : Json
  request_id : Int
  auth_key : Option String

/-- `__init__` (the source defaults `authentication_method` to
`AuthenticationMethods.MD5`). -/
def Sagemcom_Client.init (host username password : String)
    (authentication_method : PyAuthValue) : ClientState :=
  { host := host
    username := username
    authentication_method := authentication_method
    password_hash := generate_hash authentication_method password
    current_nonce := none
    server_nonce := .str ""
    session_id := .num 0
    request_id := -1
    auth_key := none }

/-- The set of values `random.randrange(start, stop)` can return. -/
def randrange_possible (start stop r : Int) : Prop :=
  start ≤ r ∧ r < stop

/-- The nonce computed from a draw `r` of `random.randrange(0, 1)`:
`math.floor(r * 500000)` (the floor of an integer is itself). -/
def nonce_value (r : Int) : Int :=
  r * 500000

/-- `__generate_nonce`, with the `randrange` draw `r` passed explicitly. -/
def generate_nonce (r : Int) (st : ClientState) : ClientState :=
  { st with current_nonce := some (nonce_value r) }

/-- `__generate_request_id`. -/
def generate_request_id (st : ClientState) : ClientState :=
  { st with request_id := st.request_id + 1 }

/-- `__get_credential_hash`.  The concatenation
`self.username + ":" + self._server_nonce` raises `TypeError` unless the
stored server nonce is a string. -/
def get_credential_hash (st : ClientState) : Except PyErr String :=
  match st.server_nonce with
  | .str sn =>
    .ok (generate_hash st.authentication_method
      (st.username ++ ":" ++ sn ++ ":" ++ st.password_hash))
  | _ => .error .typeError

/-- `__generate_auth_key`: build the auth string from the credential hash,
the current request ID and nonce, and store its hash in `_auth_key`. -/
def generate_auth_key (st : ClientState) : Except PyErr ClientState := do
  let credential_hash ← get_credential_hash st
  let auth_string := credential_hash ++ ":" ++ toString st.request_id ++ ":" ++
    pyStrOptInt st.current_nonce ++ ":JSON:/cgi/json-req"
  .ok { st with auth_key := some (generate_hash st.authentication_method auth_string) }

/-- `__get_response_error` and `__get_response_value` wrap their lookup
chain in `try: ... except KeyError: value = None`. -/
def catchKeyError (x : Except PyErr Json) : Except PyErr Json :=
  match x with
  | .error .keyError => .ok .null
  | r => r

/-- The lookup chain of `__get_response_error`:
`response['reply']['error']`. -/
def rawResponseError (response : Json) : Except PyErr Json := do
  let r ← pySubscriptStr response "reply"
  pySubscriptStr r "error"

/-- `__get_response_error`. -/
def get_response_error (response : Json) : Except PyErr Json :=
  catchKeyError (rawResponseError response)

/-- The lookup chain of `__get_response_value`:
`response['reply']['actions'][index]['callbacks'][index]['parameters']`. -/
def rawResponseValue (response : Json) (index : Nat) : Except PyErr Json := do
  let r ← pySubscriptStr response "reply"
  let a ← pySubscriptStr r "actions"
  let ai ← pySubscriptNat a index
  let cb ← pySubscriptStr ai "callbacks"
  let cbi ← pySubscriptNat cb index
  pySubscriptStr cbi "parameters"

/-- `__get_response_value` (the source defaults `index` to 0). -/
def get_response_value (response : Json) (index : Nat) : Except PyErr Json :=
  catchKeyError (rawResponseValue response index)

/-- The request envelope `payload["request"]` built by
`__api_request_async` (the source serializes it with `json.dumps` and
sends `"req=" + ...`; serialization and transport are provided
primitives). -/
structure Payload where
  id : Int
  session_id : String
  priority : Bool
  actions : List Json
  cnonce : Option Int
  auth_key : Option String

/-- The state mutations and envelope construction of
`__api_request_async` before the HTTP call: increment the request ID,
regenerate the nonce (draw `r`), recompute the auth key, build the
payload. -/
def api_request_build (r : Int) (actions : List Json) (priority : Bool)
    (st : ClientState) : Except PyErr (Payload × ClientState) := do
  let st := generate_request_id st
  let st := generate_nonce r st
  let st ← generate_auth_key st
  .ok ({ id := st.request_id
         session_id := pyStrJson st.session_id
         priority := priority
         actions := actions
         cnonce := st.current_nonce
         auth_key := st.auth_key }, st)

/-- The response handling of `__api_request_async`, as a function of the
HTTP status, the response text and the decoded JSON body.  A non-200
status prints the text and falls through to `return result` with the raw
text; a 200 status returns the parsed body after evaluating
`error['description'] != 'XMO_REQUEST_NO_ERR'` (which raises when
`error` is `None` or lacks the key, and otherwise only decides whether
to print).  (The dead `status is 400` branch also only prints.) -/
def handle_response (status : Nat) (text : String) (body : Json) :
    Except PyErr Json :=
  if status = 200 then do
    let error ← get_response_error body
    let _d ← pySubscriptStr error "description"
    .ok body
  else
    .ok (.str text)

/-- `__api_request_async` end to end: build the request, then handle the
transport outcome `(status, text, body)`. -/
def api_request_async (r : Int) (actions : List Json) (priority : Bool)
    (status : Nat) (text : String) (body : Json) (st : ClientState) :
    Except PyErr (Payload × Json × ClientState) := do
  let (payload, st) ← api_request_build r actions priority st
  let result ← handle_response status text body
  .ok (payload, result, st)

/-- The tail of `login` (lines 186-193): unwrap the response value, test
`data['id'] is not None and data['nonce'] is not None` (short-circuit:
`data['nonce']` is only evaluated when `data['id']` is not `None`), and
on success store `id` and `nonce` into the session state; any raising
subscript propagates, leaving the state untouched. -/
def login_response_step (response : Json) (st : ClientState) :
    Except PyErr (Bool × ClientState) :=
  match get_response_value response 0 with
  | .error e => .error e
  | .ok data =>
    match pySubscriptStr data "id" with
    | .error e => .error e
    | .ok idv =>
      match idv with
      | .null => .ok (false, st)
      | _ =>
        match pySubscriptStr data "nonce" with
        | .error e => .error e
        | .ok noncev =>
          match noncev with
          | .null => .ok (false, st)
          | _ => .ok (true, { st with session_id := idv, server_nonce := noncev })

/-- A raw host record as `parse_devices` consumes it: the fields the
source subscripts, with the router's schema types for the fields whose
Python operations (`.upper()`, string `or`, truth test) the source
applies. -/
structure RawHost where
  PhysAddress : String
  IPAddress : Json
  IPv4Addresses : Json
  IPv6Addresses : Json
  AddressSource : Json
  UserHostName : String
  HostName : String
  InterfaceType : Json
  Active : Bool
  UserFriendlyName : Json
  DetectedDeviceType : Json
  UserDeviceType : Json

/-- The `Device` namedtuple. -/
structure Device where
  mac_address : String
  ip_address : Json
  ipv4_addresses : Json
  ipv6_addresses : Json
  name : String
  address_source : Json
  interface : Json
  active : Bool
  user_friendly_name : Json
  detected_device_type : Json
  user_device_type : Json

/-- Python `str.upper()` (ASCII; MAC addresses are ASCII hex). -/
def pyUpper (s : String) : String :=
  s.map Char.toUpper

/-- Python `a or b` on strings: `a` when truthy (non-empty), else `b`. -/
def pyOrStr (a b : String) : String :=
  if a = "" then b else a

/-- The `Device(...)` construction inside the `parse_devices` loop. -/
def parse_device_record (device : RawHost) : Device :=
  { mac_address := pyUpper device.PhysAddress
    ip_address := device.IPAddress
    ipv4_addresses := device.IPv4Addresses
    ipv6_addresses := device.IPv6Addresses
    address_source := device.AddressSource
    name := pyOrStr device.UserHostName device.HostName
    interface := device.InterfaceType
    active := device.Active
    user_friendly_name := device.UserFriendlyName
    detected_device_type := device.DetectedDeviceType
    user_device_type := device.UserDeviceType }

/-- `parse_devices` (the source defaults `only_active` to true): the
append loop guarded by `not only_active or device['Active']`. -/
def parse_devices (data : List RawHost) (only_active : Bool) : List Device :=
  match data with
  | [] => []
  | device :: rest =>
    if !only_active || device.Active then
      parse_device_record device :: parse_devices rest only_active
    else
      parse_devices rest only_active

/-! ## The spec's formulas (for refinement comparison)

These two definitions follow the words of spec §4.1, to be compared with
`get_credential_hash` and `generate_auth_key` above. -/

/-- Spec §4.1 step 1:
`credential_hash = digest(username + ":" + server_nonce + ":" + password_hash)`. -/
def spec_credential_hash (digest : String → String)
    (username server_nonce password_hash : String) : String :=
  digest (username ++ ":" ++ server_nonce ++ ":" ++ password_hash)

/-- Spec §4.1 steps 2-3:
`auth_key = digest(credential_hash + ":" + request_id + ":" + client_nonce + ":JSON:/cgi/json-req")`. -/
def spec_auth_key (digest : String → String)
    (username server_nonce password_hash : String)
    (request_id client_nonce : Int) : String :=
  digest (spec_credential_hash digest username server_nonce password_hash ++
    ":" ++ toString request_id ++ ":" ++ toString client_nonce ++
    ":JSON:/cgi/json-req")

/-! ## Hex digest facts -/

/-- A string whose characters are all lowercase hex digits. -/
def isHexDigest (s : String) : Prop :=
  ∀ c ∈ s.data, c ∈ hexDigitChars

lemma hexChar_mem (n : Nat) : hexChar n ∈ hexDigitChars := by
  unfold hexChar
  rcases Nat.lt_or_ge n 16 with h | h
  · interval_cases n <;> decide
  · have hlen : hexDigitChars.length ≤ n := h
    rw [List.getD_eq_default _ _ hlen]
    decide

lemma bytesToHex_isHexDigest (bs : List Nat) : isHexDigest (bytesToHex bs) := by
  intro c hc
  simp only [bytesToHex, List.mem_flatMap] at hc
  obtain ⟨b, _, hcm⟩ := hc
  simp only [List.mem_cons, List.mem_singleton, List.not_mem_nil, or_false] at hcm
  rcases hcm with rfl | rfl <;> exact hexChar_mem _

lemma digestOf_isHexDigest (m : AuthenticationMethods) (v : String) :
    isHexDigest (digestOf m v) := by
  cases m <;> exact bytesToHex_isHexDigest _

/-! ## Monadic reduction helpers -/

lemma bind_ok_eq {α β : Type} (a : α) (f : α → Except PyErr β) :
    (Except.ok a >>= f) = f a := rfl

lemma bind_error_eq {α β : Type} (e : PyErr) (f : α → Except PyErr β) :
    ((Except.error e : Except PyErr α) >>= f) = Except.error e := rfl

/-! ## Claim theorems -/

/-- C1: for both digest algorithms and all username, password hash, server
nonce, client nonce and request ID values, `__generate_auth_key` stores
exactly `digest(credential_hash + ":" + request_id + ":" + client_nonce +
":JSON:/cgi/json-req")` with `credential_hash = digest(username + ":" +
server_nonce + ":" + password_hash)` (the spec §4.1 formula,
`spec_auth_key`), and the result is a hex digest string. -/
theorem auth_key_matches_spec_formula (m : AuthenticationMethods)
    (host u ph sn : String) (sid : Json) (rid cn : Int) (ak₀ : Option String) :
    generate_auth_key
        ⟨host, u, .enum m, ph, some cn, .str sn, sid, rid, ak₀⟩ =
      .ok ⟨host, u, .enum m, ph, some cn, .str sn, sid, rid,
        some (spec_auth_key (digestOf m) u sn ph rid cn)⟩ ∧
    isHexDigest (spec_auth_key (digestOf m) u sn ph rid cn) := by
  constructor
  · cases m <;> rfl
  · cases m <;> exact bytesToHex_isHexDigest _

/-- C9: the credential hash and the auth key are deterministic functions
of (digest algorithm, username, password hash, server nonce, client
nonce, request ID): two client states agreeing on those inputs (but
differing in host, session id and previously stored auth key) produce
equal outputs. -/
theorem auth_key_deterministic (m : AuthenticationMethods) (u ph sn : String)
    (cn : Option Int) (rid : Int) (h₁ h₂ : String) (sid₁ sid₂ : Json)
    (ak₁ ak₂ : Option String) :
    get_credential_hash ⟨h₁, u, .enum m, ph, cn, .str sn, sid₁, rid, ak₁⟩ =
      get_credential_hash ⟨h₂, u, .enum m, ph, cn, .str sn, sid₂, rid, ak₂⟩ ∧
    (generate_auth_key ⟨h₁, u, .enum m, ph, cn, .str sn, sid₁, rid, ak₁⟩).map
        (fun s => s.auth_key) =
      (generate_auth_key ⟨h₂, u, .enum m, ph, cn, .str sn, sid₂, rid, ak₂⟩).map
        (fun s => s.auth_key) :=
  ⟨rfl, rfl⟩

/-- C10: with an `authentication_method` outside the enum,
`__generate_hash` returns its input unchanged, so the stored password
"hash" is the plaintext password and the derived credential hash and auth
key are the raw concatenated strings rather than hex digests. -/
theorem other_auth_method_skips_hashing (host u pw sn : String) (sid : Json)
    (rid cn : Int) (ak₀ : Option String) :
    generate_hash .other pw = pw ∧
    (Sagemcom_Client.init host u pw .other).password_hash = pw ∧
    get_credential_hash ⟨host, u, .other, pw, some cn, .str sn, sid, rid, ak₀⟩ =
      .ok (u ++ ":" ++ sn ++ ":" ++ pw) ∧
    generate_auth_key ⟨host, u, .other, pw, some cn, .str sn, sid, rid, ak₀⟩ =
      .ok ⟨host, u, .other, pw, some cn, .str sn, sid, rid,
        some (u ++ ":" ++ sn ++ ":" ++ pw ++ ":" ++ toString rid ++ ":" ++
          toString cn ++ ":JSON:/cgi/json-req")⟩ :=
  ⟨rfl, rfl, rfl, rfl⟩

/-- C4: the stored request counter starts at -1, `__api_request_async`
increments it by exactly 1 before building the envelope, the envelope's
`id` equals the incremented counter, and so the first request built from
a fresh client carries id 0. -/
theorem request_id_increments_each_call :
    (∀ (host u pw : String) (m : PyAuthValue),
      (Sagemcom_Client.init host u pw m).request_id = -1) ∧
    (∀ (r : Int) (actions : List Json) (priority : Bool) (st : ClientState)
        (p : Payload) (st₁ : ClientState),
      api_request_build r actions priority st = .ok (p, st₁) →
      st₁.request_id = st.request_id + 1 ∧ p.id = st.request_id + 1) ∧
    (∀ (host u pw : String) (m : PyAuthValue) (r : Int) (actions : List Json)
        (priority : Bool) (p : Payload) (st₁ : ClientState),
      api_request_build r actions priority (Sagemcom_Client.init host u pw m) =
        .ok (p, st₁) → p.id = 0) := by
  have step : ∀ (r : Int) (actions : List Json) (priority : Bool)
      (st : ClientState) (p : Payload) (st₁ : ClientState),
      api_request_build r actions priority st = .ok (p, st₁) →
      st₁.request_id = st.request_id + 1 ∧ p.id = st.request_id + 1 := by
    intro r actions priority st p st₁ h
    unfold api_request_build generate_auth_key get_credential_hash
      generate_nonce generate_request_id at h
    cases hsn : st.server_nonce <;>
      simp only [hsn, bind_ok_eq, bind_error_eq] at h
    case str s =>
      simp only [Except.ok.injEq, Prod.mk.injEq] at h
      obtain ⟨hp, hst⟩ := h
      subst hp
      subst hst
      exact ⟨rfl, rfl⟩
    all_goals exact Except.noConfusion h
  refine ⟨fun _ _ _ _ => rfl, step, ?_⟩
  intro host u pw m r actions priority p st₁ h
  have := (step r actions priority _ p st₁ h).2
  simpa using this

/-- C4 witness: a concrete first request from a fresh client carries
envelope id 0. -/
theorem request_id_first_call_witness :
    api_request_build 0 [] true (Sagemcom_Client.init "h" "u" "pw" .other) =
      .ok (⟨0, "0", true, [], some 0, some "u::pw:0:0:JSON:/cgi/json-req"⟩,
        ⟨"h", "u", .other, "pw", some 0, .str "", .num 0, 0,
          some "u::pw:0:0:JSON:/cgi/json-req"⟩) ∧
    (0 : Int) = 0 := by
  have h : api_request_build 0 [] true
      (Sagemcom_Client.init "h" "u" "pw" .other) =
      .ok (⟨0, "0", true, [], some 0, some "u::pw:0:0:JSON:/cgi/json-req"⟩,
        ⟨"h", "u", .other, "pw", some 0, .str "", .num 0, 0,
          some "u::pw:0:0:JSON:/cgi/json-req"⟩) := rfl
  exact ⟨h, request_id_increments_each_call.2.2 "h" "u" "pw" .other 0 [] true
    _ _ h⟩

/-- C5: the source's nonce derivation
`math.floor(random.randrange(0, 1) * 500000)` is constant: every value
`random.randrange(0, 1)` can return yields the nonce 0, so successive
client nonces always repeat, contradicting the claimed non-repeating
pseudo-random generator. -/
theorem nonce_generator_always_zero (r₁ r₂ : Int)
    (h₁ : randrange_possible 0 1 r₁) (h₂ : randrange_possible 0 1 r₂) :
    nonce_value r₁ = 0 ∧ nonce_value r₁ = nonce_value r₂ ∧
    ∀ st : ClientState, (generate_nonce r₁ st).current_nonce = some 0 := by
  obtain ⟨ha₁, hb₁⟩ := h₁
  obtain ⟨ha₂, hb₂⟩ := h₂
  have e₁ : r₁ = 0 := by omega
  have e₂ : r₂ = 0 := by omega
  subst e₁; subst e₂
  exact ⟨rfl, rfl, fun st => rfl⟩

/-- C5 witness: the one possible draw of `randrange(0, 1)` is 0 and it
yields nonce 0. -/
theorem nonce_generator_witness : nonce_value 0 = 0 :=
  (nonce_generator_always_zero 0 0 ⟨by decide, by decide⟩
    ⟨by decide, by decide⟩).1

/-! ## Inversion helpers -/

lemma catchKeyError_ne_keyError (x : Except PyErr Json) :
    catchKeyError x ≠ .error .keyError := by
  cases x with
  | error e => cases e <;> simp [catchKeyError]
  | ok v => simp [catchKeyError]

lemma pySubscriptStr_ok_inv (v : Json) (k : String) (x : Json)
    (h : pySubscriptStr v k = .ok x) :
    ∃ fields, v = .obj fields ∧ objLookup fields k = some x := by
  cases v <;> simp only [pySubscriptStr] at h <;>
    try exact Except.noConfusion h
  case obj fields =>
    cases hl : objLookup fields k with
    | none => rw [hl] at h; exact Except.noConfusion h
    | some y =>
      rw [hl] at h
      injection h with hxy
      exact ⟨fields, rfl, by rw [hl, hxy]⟩

/-- Success condition of `login`: the unwrapped response parameters are a
dict containing non-null `id` and non-null `nonce`. -/
def login_success_params (response : Json) : Prop :=
  ∃ fields idv noncev,
    get_response_value response 0 = .ok (.obj fields) ∧
    objLookup fields "id" = some idv ∧ idv ≠ .null ∧
    objLookup fields "nonce" = some noncev ∧ noncev ≠ .null

lemma login_step_success (response : Json) (st : ClientState)
    (fields : List (String × Json)) (idv noncev : Json)
    (hf : get_response_value response 0 = .ok (.obj fields))
    (hid : objLookup fields "id" = some idv) (hidn : idv ≠ .null)
    (hn : objLookup fields "nonce" = some noncev) (hnn : noncev ≠ .null) :
    login_response_step response st =
      .ok (true, { st with session_id := idv, server_nonce := noncev }) := by
  unfold login_response_step
  simp only [hf, pySubscriptStr, hid, hn]

lemma login_step_inv (response : Json) (st st₁ : ClientState) (b : Bool)
    (h : login_response_step response st = .ok (b, st₁)) :
    (b = true → login_success_params response ∧
      ∃ idv noncev, st₁ = { st with session_id := idv, server_nonce := noncev }) ∧
    (b = false → st₁ = st) := by
  unfold login_response_step at h
  cases hv : get_response_value response 0 with
  | error e =>
    simp only [hv] at h
    exact Except.noConfusion h
  | ok data =>
    simp only [hv] at h
    cases hid : pySubscriptStr data "id" with
    | error e =>
      simp only [hid] at h
      exact Except.noConfusion h
    | ok idv =>
      simp only [hid] at h
      obtain ⟨fields, rfl, hlid⟩ := pySubscriptStr_ok_inv _ _ _ hid
      cases idv
      case null =>
        simp only [Except.ok.injEq, Prod.mk.injEq] at h
        obtain ⟨hb, hst⟩ := h
        subst hb
        exact ⟨fun ht => Bool.noConfusion ht, fun _ => hst.symm⟩
      all_goals
        cases hn : pySubscriptStr (Json.obj fields) "nonce" with
        | error e =>
          simp only [hn] at h
          exact Except.noConfusion h
        | ok noncev =>
          simp only [hn] at h
          obtain ⟨fields₂, heq, hlnonce⟩ := pySubscriptStr_ok_inv _ _ _ hn
          injection heq with heq
          subst heq
          cases noncev <;>
            simp only [Except.ok.injEq, Prod.mk.injEq] at h <;>
            obtain ⟨hb, hst⟩ := h <;>
            subst hb <;>
            first
              | exact ⟨fun ht => Bool.noConfusion ht, fun _ => hst.symm⟩
              | exact ⟨fun _ => ⟨⟨fields, _, _, hv, hlid,
                  fun hcon => Json.noConfusion hcon, hlnonce,
                  fun hcon => Json.noConfusion hcon⟩, _, _, hst.symm⟩,
                  fun hfal => Bool.noConfusion hfal⟩

/-! ## Remaining claim theorems -/

/-- A 200 body carrying an application-level error other than the
success sentinel. -/
def restrictionErrorBody : Json :=
  .obj [("reply", .obj [
    ("error", .obj [("description", .str "XMO_ACCESS_RESTRICTION_ERR")]),
    ("actions", .arr [])])]

/-- C2: the generic request path does NOT surface failures: an HTTP 500
is returned to the caller as a plain (successful) value holding the raw
text, and a 200 response whose `reply.error.description` is not
`XMO_REQUEST_NO_ERR` is returned as if the call had succeeded — the
source only prints.  This contradicts the claim (and the spec flags the
behaviour as a defect). -/
theorem errors_returned_as_success :
    handle_response 500 "Internal Server Error" .null =
      .ok (.str "Internal Server Error") ∧
    handle_response 200 "" restrictionErrorBody = .ok restrictionErrorBody ∧
    api_request_async 0 [] false 500 "Internal Server Error" .null
        (Sagemcom_Client.init "h" "u" "pw" .other) =
      .ok (⟨0, "0", false, [], some 0, some "u::pw:0:0:JSON:/cgi/json-req"⟩,
        .str "Internal Server Error",
        ⟨"h", "u", .other, "pw", some 0, .str "", .num 0, 0,
          some "u::pw:0:0:JSON:/cgi/json-req"⟩) :=
  ⟨rfl, rfl, rfl⟩

/-- C3: `login` returns true iff the unwrapped parameters hold non-null
`id` and `nonce`; exactly then the session id and server nonce are
overwritten with those two values, and on a false return the state is
unchanged (a raising lookup also leaves it unchanged, the model returning
no successor state on `.error`). -/
theorem login_true_iff_id_and_nonce (response : Json) (st : ClientState) :
    ((∃ st₁, login_response_step response st = .ok (true, st₁)) ↔
      login_success_params response) ∧
    (∀ fields idv noncev,
      get_response_value response 0 = .ok (.obj fields) →
      objLookup fields "id" = some idv → idv ≠ .null →
      objLookup fields "nonce" = some noncev → noncev ≠ .null →
      login_response_step response st =
        .ok (true, { st with session_id := idv, server_nonce := noncev })) ∧
    (∀ st₁, login_response_step response st = .ok (false, st₁) → st₁ = st) := by
  refine ⟨⟨?_, ?_⟩, ?_, ?_⟩
  · rintro ⟨st₁, h⟩
    exact ((login_step_inv response st st₁ true h).1 rfl).1
  · rintro ⟨fields, idv, noncev, hf, hid, hidn, hn, hnn⟩
    exact ⟨_, login_step_success response st fields idv noncev hf hid hidn hn hnn⟩
  · intro fields idv noncev hf hid hidn hn hnn
    exact login_step_success response st fields idv noncev hf hid hidn hn hnn
  · intro st₁ h
    exact (login_step_inv response st st₁ false h).2 rfl

/-- C3 witness: the spec's example response
`{"id": 5, "nonce": "abc"}` logs in, overwriting session id 0 and the
empty server nonce. -/
theorem login_witness :
    login_response_step
        (.obj [("reply", .obj [("actions",
          .arr [.obj [("callbacks",
            .arr [.obj [("parameters",
              .obj [("id", .num 5), ("nonce", .str "abc")])]])]])])])
        (Sagemcom_Client.init "h" "u" "pw" .other) =
      .ok (true, { Sagemcom_Client.init "h" "u" "pw" .other with
        session_id := .num 5, server_nonce := .str "abc" }) :=
  (login_true_iff_id_and_nonce _ _).2.1 [("id", .num 5), ("nonce", .str "abc")]
    (.num 5) (.str "abc") rfl rfl (fun hcon => Json.noConfusion hcon) rfl
    (fun hcon => Json.noConfusion hcon)

/-- C6 counterexample: a 200 response of unexpected shape raises instead
of yielding "no value": an empty `actions` list makes
`__get_response_value` raise `IndexError` (only `KeyError` is caught),
and a 200 body without `reply.error` makes the generic request path
itself raise `TypeError` on `error['description']`. -/
theorem unwrap_raises_on_unexpected_shape :
    get_response_value (.obj [("reply", .obj [("actions", .arr [])])]) 0 =
      .error .indexError ∧
    handle_response 200 "ok" (.obj []) = .error .typeError :=
  ⟨rfl, rfl⟩

/-- C6 amended: the unwrap helpers never let `KeyError` escape — a
missing dict key at any level of the chain yields `None` — but a
response of unexpected shape (null or non-dict intermediate, too-short
list) raises `TypeError`/`IndexError` to the caller. -/
theorem unwrap_missing_keys_yield_none (response : Json) (index : Nat) :
    get_response_error response ≠ .error .keyError ∧
    get_response_value response index ≠ .error .keyError ∧
    (rawResponseError response = .error .keyError →
      get_response_error response = .ok .null) ∧
    (rawResponseValue response index = .error .keyError →
      get_response_value response index = .ok .null) := by
  refine ⟨catchKeyError_ne_keyError _, catchKeyError_ne_keyError _, ?_, ?_⟩
  · intro h
    unfold get_response_error
    rw [h]
    rfl
  · intro h
    unfold get_response_value
    rw [h]
    rfl

/-- C6 amended witness: a response with no keys at all unwraps to `None`. -/
theorem unwrap_missing_keys_witness :
    get_response_error (.obj []) = .ok .null :=
  (unwrap_missing_keys_yield_none (.obj []) 0).2.2.1 rfl

/-- C7: with `only_active=true`, `parse_devices` returns exactly the
normalized records of the inputs whose active flag is true; with
`only_active=false` it normalizes every input. -/
theorem parse_devices_filter_spec (data : List RawHost) :
    parse_devices data true =
      (data.filter fun d => d.Active).map parse_device_record ∧
    parse_devices data false = data.map parse_device_record := by
  constructor
  · induction data with
    | nil => rfl
    | cons r rest ih => cases hA : r.Active <;>
        simp [parse_devices, List.filter_cons, hA, ih]
  · induction data with
    | nil => rfl
    | cons r rest ih => simp [parse_devices, ih]

/-- C8: every record `parse_devices` outputs is the normalization of some
input record, with `mac_address` the uppercased physical address and
`name` the user-assigned hostname when non-empty, else the reported
hostname. -/
theorem parse_devices_mac_and_name (data : List RawHost) (only_active : Bool)
    (d : Device) (hd : d ∈ parse_devices data only_active) :
    ∃ raw ∈ data, d = parse_device_record raw ∧
      d.mac_address = pyUpper raw.PhysAddress ∧
      d.name = if raw.UserHostName = "" then raw.HostName else raw.UserHostName := by
  induction data with
  | nil => simp [parse_devices] at hd
  | cons r rest ih =>
    simp only [parse_devices] at hd
    split at hd
    · rcases List.mem_cons.mp hd with rfl | htail
      · exact ⟨r, List.mem_cons_self r rest, rfl, rfl, rfl⟩
      · obtain ⟨raw, hraw, h⟩ := ih htail
        exact ⟨raw, List.mem_cons_of_mem _ hraw, h⟩
    · obtain ⟨raw, hraw, h⟩ := ih hd
      exact ⟨raw, List.mem_cons_of_mem _ hraw, h⟩

/-- The spec §8 scenario record: inactive host, lowercase MAC, empty
user-assigned hostname, reported hostname `laptop`. -/
def rawAx : RawHost :=
  { PhysAddress := "aa:bb:cc:dd:ee:ff"
    IPAddress := .str "192.168.1.2"
    IPv4Addresses := .arr []
    IPv6Addresses := .arr []
    AddressSource := .str "DHCP"
    UserHostName := ""
    HostName := "laptop"
    InterfaceType := .str "Ethernet"
    Active := true
    UserFriendlyName := .str ""
    DetectedDeviceType := .str ""
    UserDeviceType := .str "" }

/-- C8 witness: the concrete record's normalization uppercases the MAC
and falls back to the reported hostname. -/
theorem parse_devices_mac_witness :
    ∃ raw ∈ [rawAx], parse_device_record rawAx = parse_device_record raw ∧
      (parse_device_record rawAx).mac_address = pyUpper raw.PhysAddress ∧
      (parse_device_record rawAx).name =
        if raw.UserHostName = "" then raw.HostName else raw.UserHostName :=
  parse_devices_mac_and_name [rawAx] true (parse_device_record rawAx)
    (show parse_device_record rawAx ∈ [parse_device_record rawAx] from
      List.mem_singleton_self _)

end Sagemcom
